import Mathlib

/-!
Verification of the ERC-6492 signature-verification core (`verifyHash`).

The source under scrutiny is `src/actions/public/verifyHash.ts`: it normalizes
a union-typed signature input to canonical hex, builds a deployment-style call
request (universal-validator bytecode plus ABI-encoded constructor arguments),
executes it through an injected call capability, and interprets the outcome
(sentinel comparison / revert-to-false / error propagation).

Hex strings are embedded as the list of hex-digit characters after the
constant `0x` prefix; byte sequences as `List Nat` with entries below 256.
Collaborator utilities that live elsewhere in the repository
(`bytesToHex`, `isBytesEqual`, `serializeSignature`, the ABI encoder, the
`call` action) are modelled from the spec, as noted on each definition.
-/

namespace Viem

/-- A hex string, as the list of hex-digit characters after the `0x` prefix. -/
abbrev HexString := List Char

/-- A raw byte sequence; each entry is a byte value below 256. -/
abbrev Bytes := List Nat

/-- Modelled from the spec: hex-digit character to its nibble value
(hex/byte conversion utilities are external collaborators).  Non-hex
characters map to 0; all inputs reaching it are hex digits. -/
def charToNibble (c : Char) : Nat :=
  if '0' ≤ c ∧ c ≤ '9' then c.toNat - 48
  else if 'a' ≤ c ∧ c ≤ 'f' then c.toNat - 87
  else if 'A' ≤ c ∧ c ≤ 'F' then c.toNat - 55
  else 0

/-- Nibble value to its lowercase hex-digit character. -/
def nibbleToChar (n : Nat) : Char :=
  if n < 10 then Char.ofNat (48 + n) else Char.ofNat (87 + n)

/-- Modelled from the spec: encode a byte sequence to lowercase hex
(the repository's `bytesToHex`, an external hex/byte conversion utility). -/
def bytesToHex : Bytes → HexString
  | [] => []
  | b :: rest => nibbleToChar (b / 16) :: nibbleToChar (b % 16) :: bytesToHex rest

/-- Consume hex digits two at a time into bytes. -/
def hexPairsToBytes : HexString → Bytes
  | a :: b :: rest => (charToNibble a * 16 + charToNibble b) :: hexPairsToBytes rest
  | [a] => [charToNibble a]
  | [] => []

/-- Modelled from the spec: decode hex to bytes, left-padding an odd-length
string with a zero nibble (the repository's `hexToBytes` utility; §4.4's
"defaulting to a single-byte zero value" relies on `0x0` decoding to `0x00`). -/
def hexToBytes (h : HexString) : Bytes :=
  if h.length % 2 = 1 then hexPairsToBytes ('0' :: h) else hexPairsToBytes h

/-- Modelled from the spec (§4.4): exact byte equality of two hex-encoded
operands (the repository's `isBytesEqual`, an external utility). -/
def isBytesEqual (a b : HexString) : Bool :=
  hexToBytes a == hexToBytes b

/-- `n` as `len` big-endian bytes. -/
def natToBytesBE : Nat → Nat → Bytes
  | 0, _ => []
  | k + 1, n => natToBytesBE k (n / 256) ++ [n % 256]

/-- `n` as a 32-byte big-endian word. -/
def natToBytes32 (n : Nat) : Bytes := natToBytesBE 32 n

/-- Left-pad a byte sequence with zeros to a 32-byte word. -/
def leftPad32 (b : Bytes) : Bytes := List.replicate (32 - b.length) 0 ++ b

/-- Right-pad a byte sequence with zeros to a 32-byte word. -/
def rightPad32 (b : Bytes) : Bytes := b ++ List.replicate (32 - b.length) 0

/-- Right-pad a byte sequence with zeros up to a multiple of 32 bytes. -/
def rightPadMul32 (b : Bytes) : Bytes :=
  b ++ List.replicate ((32 - b.length % 32) % 32) 0

/-- A structured signature record: `r` and `s` 256-bit scalars plus a
recovery indicator (y-parity, 0 or 1), per the spec's data model. -/
structure Signature where
  r : Nat
  s : Nat
  yParity : Nat
deriving DecidableEq

/-- Modelled from the spec (§4.1, §7): serialize a structured record per the
standard canonical encoding — `r ∥ s ∥ recovery-byte`, each scalar a 32-byte
big-endian word, the recovery byte `0x1b`/`0x1c` — failing with an encoding
error when a structured field is out of range (the repository's
`serializeSignature`, which lives outside this core). -/
inductive EncodingError
  | outOfRange
deriving DecidableEq

def serializeSignature (sig : Signature) : Except EncodingError HexString :=
  if sig.r < 2 ^ 256 ∧ sig.s < 2 ^ 256 ∧ (sig.yParity = 0 ∨ sig.yParity = 1) then
    .ok (bytesToHex (natToBytes32 sig.r ++ natToBytes32 sig.s ++ [27 + sig.yParity]))
  else
    .error .outOfRange

/-- The union-typed signature parameter `Hex | ByteArray | Signature`.  The
source discriminates the members at runtime (`isHex`, then the `r`/`s` field
check, else raw bytes); the constructors embed that discrimination. -/
inductive SignatureInput
  | hexStr (h : HexString)
  | bytes (b : Bytes)
  | structured (sig : Signature)
deriving DecidableEq

/-- The signature-normalization step of `verifyHash` (the IIFE at lines
58–63): a hex string passes through unchanged, a structured record is
serialized, raw bytes are hex-encoded.  It runs before the `try` block,
hence before any call. -/
def normalizeSignature : SignatureInput → Except EncodingError HexString
  | .hexStr h => .ok h
  | .structured sig => serializeSignature sig
  | .bytes b => .ok (bytesToHex b)

/-- The parameters of `verifyHash`: signer address, hash, signature, plus the
optional block selector and counterfactual-deployment fields picked from
`CallParameters`. -/
structure VerifyHashParameters where
  address : HexString
  hash : HexString
  signature : SignatureInput
  blockNumber : Option Nat
  blockTag : Option HexString
  factory : Option HexString
  factoryData : Option HexString

/-- The outbound call request assembled by `verifyHash` (the fields of
`CallParameters` this core populates). -/
structure CallParameters where
  data : HexString
  blockNumber : Option Nat
  blockTag : Option HexString
  factory : Option HexString
  factoryData : Option HexString

/-- Outcome of the injected call capability (§4.3): returned data on success
(absent when the node returns no data), the distinguished execution-revert
condition (`CallExecutionError`), or any other error. -/
inductive CallOutcome (ε : Type)
  | success (data : Option HexString)
  | reverted
  | failure (e : ε)

/-- An error surfaced by `verifyHash`: a synchronous encoding error from
normalization, or an error propagated unchanged from the call capability. -/
inductive VerifyError (ε : Type)
  | encoding (e : EncodingError)
  | call (e : ε)
deriving DecidableEq

/-- Modelled from the spec (§4.2, §6): ABI-encode the validator constructor
arguments `(address, bytes32, bytes)` — address left-padded to a word, the
hash a right-padded fixed-bytes word, then the dynamic-bytes head (offset
`0x60`) followed by its length word and right-padded payload (the
repository's ABI encoder, an external collaborator). -/
def encodeValidatorArgs (address hash sigHex : HexString) : Bytes :=
  leftPad32 (hexToBytes address) ++
  rightPad32 (hexToBytes hash) ++
  natToBytes32 96 ++
  natToBytes32 (hexToBytes sigHex).length ++
  rightPadMul32 (hexToBytes sigHex)

/-- Modelled from the spec (§4.2): the deployment payload is the fixed
validator bytecode concatenated with the ABI-encoded constructor arguments
(the repository's `encodeDeployData`).  The bytecode itself is a fixed,
externally supplied artifact and is a parameter of the development. -/
def encodeDeployData (bytecode address hash sigHex : HexString) : HexString :=
  bytecode ++ bytesToHex (encodeValidatorArgs address hash sigHex)

/-- The Validator Call Builder: the request `verifyHash` hands to the call
capability — the deployment payload as `data`, and the caller-supplied block
selector and counterfactual-deployment fields spread in unmodified. -/
def buildCallRequest (bytecode : HexString) (p : VerifyHashParameters)
    (sigHex : HexString) : CallParameters :=
  { data := encodeDeployData bytecode p.address p.hash sigHex
    blockNumber := p.blockNumber
    blockTag := p.blockTag
    factory := p.factory
    factoryData := p.factoryData }

/-- The Result Interpreter (the `try`/`catch` of lines 66–89): on success,
compare the returned data — defaulted to `0x0` when absent — against the
sentinel `0x1` by exact byte equality; on the recognized execution-revert
condition return `false`; propagate any other error unchanged. -/
def interpretOutcome {ε : Type} : CallOutcome ε → Except (VerifyError ε) Bool
  | .success data => .ok (isBytesEqual (data.getD ['0']) ['1'])
  | .reverted => .ok false
  | .failure e => .error (.call e)

/-- `verifyHash`: normalize the signature, build the deployment-style call
request, run it through the injected call capability, interpret the outcome.
A normalization error is raised before the capability is consulted. -/
def verifyHash {ε : Type} (bytecode : HexString)
    (callFn : CallParameters → CallOutcome ε)
    (p : VerifyHashParameters) : Except (VerifyError ε) Bool :=
  match normalizeSignature p.signature with
  | .error e => .error (.encoding e)
  | .ok sigHex => interpretOutcome (callFn (buildCallRequest bytecode p sigHex))

/-! ### Helper lemmas -/

theorem verifyHash_norm_ok {ε : Type} (bytecode : HexString)
    (f : CallParameters → CallOutcome ε) (p : VerifyHashParameters) (sigHex : HexString)
    (hnorm : normalizeSignature p.signature = .ok sigHex) :
    verifyHash bytecode f p = interpretOutcome (f (buildCallRequest bytecode p sigHex)) := by
  unfold verifyHash
  rw [hnorm]

theorem verifyHash_norm_err {ε : Type} (bytecode : HexString)
    (f : CallParameters → CallOutcome ε) (p : VerifyHashParameters) (e : EncodingError)
    (hnorm : normalizeSignature p.signature = .error e) :
    verifyHash bytecode f p = .error (.encoding e) := by
  unfold verifyHash
  rw [hnorm]

theorem hexToBytes_zero : hexToBytes ['0'] = [0] := by decide

theorem hexToBytes_one : hexToBytes ['1'] = [1] := by decide

/-! ### Test fixtures used by witnesses -/

def testParams : VerifyHashParameters :=
  { address := ['a', 'b'], hash := ['1', '2'], signature := .hexStr ['d', 'e', 'a', 'd'],
    blockNumber := none, blockTag := none, factory := none, factoryData := none }

def outOfRangeParams : VerifyHashParameters :=
  { address := ['a', 'b'], hash := ['1', '2'], signature := .structured ⟨2 ^ 256, 1, 0⟩,
    blockNumber := none, blockTag := none, factory := none, factoryData := none }

def testBytecode : HexString := ['6', '0', '8', '0']

def capSuccess01 : CallParameters → CallOutcome Nat := fun _ => .success (some ['0', '1'])

def capReverted : CallParameters → CallOutcome Nat := fun _ => .reverted

def capRevertedAlias : CallParameters → CallOutcome Nat := fun r => capReverted r

def capFailure7 : CallParameters → CallOutcome Nat := fun _ => .failure 7

/-! ### Claim theorems -/

/-- Claim C1: on a successful execution of the call capability returning data
`d`, `verifyHash` returns `true` exactly when `d` is byte-identical to the
single-byte sentinel `0x01`, an empty or absent `d` being defaulted to a
single zero byte and therefore yielding `false`. -/
theorem verifyHash_success_sentinel_iff {ε : Type} (bytecode : HexString)
    (f : CallParameters → CallOutcome ε) (p : VerifyHashParameters)
    (sigHex : HexString) (d : Option HexString)
    (hnorm : normalizeSignature p.signature = .ok sigHex)
    (hcall : f (buildCallRequest bytecode p sigHex) = .success d) :
    (verifyHash bytecode f p = .ok true ↔
      (match d with
       | none => [0]
       | some h => if h = [] then [0] else hexToBytes h) = [1]) ∧
    ((d = none ∨ d = some []) → verifyHash bytecode f p = .ok false) := by
  have hred : verifyHash bytecode f p = .ok (isBytesEqual (d.getD ['0']) ['1']) := by
    rw [verifyHash_norm_ok bytecode f p sigHex hnorm, hcall]
    rfl
  constructor
  · rw [hred]
    simp only [isBytesEqual, hexToBytes_one, Except.ok.injEq, beq_iff_eq]
    match d with
    | none =>
      simp only [Option.getD, hexToBytes_zero]
    | some h =>
      by_cases hh : h = []
      · subst hh
        simp [hexToBytes, hexPairsToBytes]
      · simp [hh]
  · rintro (rfl | rfl) <;>
      rw [hred] <;>
      simp [isBytesEqual, hexToBytes, hexPairsToBytes, charToNibble]

/-- Claim C2: when the call capability signals the recognized execution-revert
condition, `verifyHash` returns `false` instead of propagating the error. -/
theorem verifyHash_revert_false {ε : Type} (bytecode : HexString)
    (f : CallParameters → CallOutcome ε) (p : VerifyHashParameters) (sigHex : HexString)
    (hnorm : normalizeSignature p.signature = .ok sigHex)
    (hcall : f (buildCallRequest bytecode p sigHex) = .reverted) :
    verifyHash bytecode f p = .ok false := by
  rw [verifyHash_norm_ok bytecode f p sigHex hnorm, hcall]
  rfl

/-- Claim C3: an error from the call capability other than the recognized
execution-revert condition is propagated unchanged, never coerced to a
boolean result. -/
theorem verifyHash_propagates_other_error {ε : Type} (bytecode : HexString)
    (f : CallParameters → CallOutcome ε) (p : VerifyHashParameters) (sigHex : HexString)
    (e : ε) (hnorm : normalizeSignature p.signature = .ok sigHex)
    (hcall : f (buildCallRequest bytecode p sigHex) = .failure e) :
    verifyHash bytecode f p = .error (.call e) ∧
    ∀ b : Bool, verifyHash bytecode f p ≠ .ok b := by
  have hred : verifyHash bytecode f p = .error (.call e) := by
    rw [verifyHash_norm_ok bytecode f p sigHex hnorm, hcall]
    rfl
  exact ⟨hred, fun b hb => by rw [hred] at hb; cases hb⟩

/-- Claim C4: the three representations of one underlying signature — the
canonical hex string, the raw 65-byte sequence, and the structured record —
normalize to the same canonical hex output, the hex string passing through
unchanged. -/
theorem normalize_representations_agree (r s yp : Nat)
    (hr : r < 2 ^ 256) (hs : s < 2 ^ 256) (hyp : yp = 0 ∨ yp = 1) :
    normalizeSignature (.hexStr (bytesToHex (natToBytes32 r ++ natToBytes32 s ++ [27 + yp]))) =
      .ok (bytesToHex (natToBytes32 r ++ natToBytes32 s ++ [27 + yp])) ∧
    normalizeSignature (.bytes (natToBytes32 r ++ natToBytes32 s ++ [27 + yp])) =
      .ok (bytesToHex (natToBytes32 r ++ natToBytes32 s ++ [27 + yp])) ∧
    normalizeSignature (.structured ⟨r, s, yp⟩) =
      .ok (bytesToHex (natToBytes32 r ++ natToBytes32 s ++ [27 + yp])) := by
  refine ⟨rfl, rfl, ?_⟩
  simp only [normalizeSignature, serializeSignature]
  rw [if_pos ⟨hr, hs, hyp⟩]

/-- Claim C5: the `data` field of the outbound call request is the fixed
validator deployment bytecode concatenated with the ABI encoding of the
constructor arguments, and the call capability is consulted only at that
request. -/
theorem verifyHash_request_data (ε : Type) (bytecode : HexString)
    (p : VerifyHashParameters) (sigHex : HexString)
    (hnorm : normalizeSignature p.signature = .ok sigHex) :
    (buildCallRequest bytecode p sigHex).data =
      bytecode ++ bytesToHex (encodeValidatorArgs p.address p.hash sigHex) ∧
    ∀ f g : CallParameters → CallOutcome ε,
      f (buildCallRequest bytecode p sigHex) = g (buildCallRequest bytecode p sigHex) →
      verifyHash bytecode f p = verifyHash bytecode g p := by
  refine ⟨rfl, fun f g hfg => ?_⟩
  rw [verifyHash_norm_ok bytecode f p sigHex hnorm,
    verifyHash_norm_ok bytecode g p sigHex hnorm, hfg]

/-- Claim C6: the caller-supplied counterfactual-deployment fields and block
selector appear in the outbound call request unmodified, whatever their
values. -/
theorem buildCallRequest_passthrough (bytecode : HexString) (p : VerifyHashParameters)
    (sigHex : HexString) :
    (buildCallRequest bytecode p sigHex).factory = p.factory ∧
    (buildCallRequest bytecode p sigHex).factoryData = p.factoryData ∧
    (buildCallRequest bytecode p sigHex).blockNumber = p.blockNumber ∧
    (buildCallRequest bytecode p sigHex).blockTag = p.blockTag :=
  ⟨rfl, rfl, rfl, rfl⟩

/-- Claim C7: when normalization fails, `verifyHash` raises the encoding
error — not `false` — and its result is independent of the call capability,
so the capability is never consulted. -/
theorem verifyHash_encoding_error_before_call {ε : Type} (bytecode : HexString)
    (f g : CallParameters → CallOutcome ε) (p : VerifyHashParameters) (e : EncodingError)
    (hnorm : normalizeSignature p.signature = .error e) :
    verifyHash bytecode f p = .error (.encoding e) ∧
    verifyHash bytecode f p = verifyHash bytecode g p := by
  refine ⟨verifyHash_norm_err bytecode f p e hnorm, ?_⟩
  rw [verifyHash_norm_err bytecode f p e hnorm, verifyHash_norm_err bytecode g p e hnorm]

/-- Claim C8 (amended): normalization is total and error-free on the
hex-string and raw-byte variants, but on structured records it succeeds
exactly when `r` and `s` fit in 256 bits and the recovery indicator is 0 or
1, and returns an encoding error otherwise. -/
theorem normalizeSignature_totality_characterization :
    (∀ h : HexString, normalizeSignature (.hexStr h) = .ok h) ∧
    (∀ b : Bytes, normalizeSignature (.bytes b) = .ok (bytesToHex b)) ∧
    (∀ sig : Signature,
      sig.r < 2 ^ 256 ∧ sig.s < 2 ^ 256 ∧ (sig.yParity = 0 ∨ sig.yParity = 1) →
      normalizeSignature (.structured sig) =
        .ok (bytesToHex (natToBytes32 sig.r ++ natToBytes32 sig.s ++ [27 + sig.yParity]))) ∧
    (∀ sig : Signature,
      ¬(sig.r < 2 ^ 256 ∧ sig.s < 2 ^ 256 ∧ (sig.yParity = 0 ∨ sig.yParity = 1)) →
      normalizeSignature (.structured sig) = .error .outOfRange) := by
  refine ⟨fun h => rfl, fun b => rfl, fun sig hin => ?_, fun sig hout => ?_⟩
  · simp only [normalizeSignature, serializeSignature]
    rw [if_pos hin]
  · simp only [normalizeSignature, serializeSignature]
    rw [if_neg hout]

/-- Claim C8, counterexample: a structured record whose `r` does not fit in
256 bits is not normalized to hex — normalization has an error condition. -/
theorem normalize_structured_out_of_range_errs :
    normalizeSignature (.structured ⟨2 ^ 256, 1, 0⟩) = .error .outOfRange := by
  simp only [normalizeSignature, serializeSignature]
  rw [if_neg]
  intro hcon
  exact absurd hcon.1 (lt_irrefl _)

/-- Claim C9: with a call capability whose responses do not change between
invocations, two runs of `verifyHash` on the same parameters produce the
same result — the operation holds no state across invocations. -/
theorem verifyHash_deterministic {ε : Type} (bytecode : HexString)
    (f g : CallParameters → CallOutcome ε) (p : VerifyHashParameters)
    (hagree : ∀ r, f r = g r) :
    verifyHash bytecode f p = verifyHash bytecode g p := by
  cases hn : normalizeSignature p.signature with
  | error e =>
    rw [verifyHash_norm_err bytecode f p e hn, verifyHash_norm_err bytecode g p e hn]
  | ok s =>
    rw [verifyHash_norm_ok bytecode f p s hn, verifyHash_norm_ok bytecode g p s hn, hagree]

/-- Claim C10: a hex-string signature input is forwarded as-is by
normalization, whatever its length or content — no encoding error is ever
raised on the hex branch. -/
theorem normalize_hex_never_fails (h : HexString) :
    normalizeSignature (.hexStr h) = .ok h := rfl

/-! ### Witnesses -/

/-- Witness for C1 at concrete inputs: a capability returning `0x01` makes
`verifyHash` resolve `true`. -/
theorem verifyHash_success_sentinel_iff_witness :
    verifyHash testBytecode capSuccess01 testParams = .ok true :=
  (verifyHash_success_sentinel_iff testBytecode capSuccess01 testParams
      ['d', 'e', 'a', 'd'] (some ['0', '1']) rfl rfl).1.mpr (by decide)

/-- Witness for C2 at concrete inputs: a reverting capability makes
`verifyHash` resolve `false`. -/
theorem verifyHash_revert_false_witness :
    verifyHash testBytecode capReverted testParams = .ok false :=
  verifyHash_revert_false testBytecode capReverted testParams ['d', 'e', 'a', 'd'] rfl rfl

/-- Witness for C3 at concrete inputs: a capability failing with error `7`
makes `verifyHash` surface that same error. -/
theorem verifyHash_propagates_other_error_witness :
    verifyHash testBytecode capFailure7 testParams = .error (.call 7) :=
  (verifyHash_propagates_other_error testBytecode capFailure7 testParams
      ['d', 'e', 'a', 'd'] 7 rfl rfl).1

/-- Witness for C4 at concrete scalars. -/
theorem normalize_representations_agree_witness :
    normalizeSignature (.structured ⟨1, 2, 0⟩) =
      .ok (bytesToHex (natToBytes32 1 ++ natToBytes32 2 ++ [27 + 0])) :=
  (normalize_representations_agree 1 2 0 (by norm_num) (by norm_num) (Or.inl rfl)).2.2

/-- Witness for C5 at concrete inputs. -/
theorem verifyHash_request_data_witness :
    (buildCallRequest testBytecode testParams ['d', 'e', 'a', 'd']).data =
      testBytecode ++
        bytesToHex (encodeValidatorArgs testParams.address testParams.hash
          ['d', 'e', 'a', 'd']) :=
  (verifyHash_request_data Nat testBytecode testParams ['d', 'e', 'a', 'd'] rfl).1

/-- Witness for C7 at a concrete out-of-range structured signature. -/
theorem verifyHash_encoding_error_before_call_witness :
    verifyHash testBytecode capSuccess01 outOfRangeParams = .error (.encoding .outOfRange) ∧
    verifyHash testBytecode capSuccess01 outOfRangeParams =
      verifyHash testBytecode capReverted outOfRangeParams :=
  verifyHash_encoding_error_before_call testBytecode capSuccess01 capReverted
    outOfRangeParams .outOfRange
    (by simp only [outOfRangeParams, normalizeSignature, serializeSignature]
        rw [if_neg]
        intro hcon
        exact absurd hcon.1 (lt_irrefl _))

/-- Witness for C9 with two pointwise-equal capabilities. -/
theorem verifyHash_deterministic_witness :
    verifyHash testBytecode capReverted testParams =
      verifyHash testBytecode capRevertedAlias testParams :=
  verifyHash_deterministic testBytecode capReverted capRevertedAlias testParams
    (fun _ => rfl)

end Viem
